import Mathlib

/-! Origyn OEM-materials-classifier: pipeline state machine, shallow embedding.

This file embeds the core of the `origyn` pipeline (the five-stage workflow
threading a `PartInfoState` record from the initial query to the final
`OEMResult`) as executable Lean definitions, translated directly from the
Python source:

* `src/origyn/models.py` — `OEMOutput`, `PartInfoState`, `OEMResult.from_state`
* `src/origyn/agents/translation_agent.py` — `translating_agent_node`
* `src/origyn/agents/search_agent.py` — `web_search_agent_node`
* `src/origyn/agents/llm_agent.py` — `synthesize_oem_info_node`, `parse_llm_output_node`
* `src/origyn/agents/vector_search_agent.py` — `vector_search_agent_node`
* `src/origyn/workflows/workflow.py` — `OEMWorkflow.run`

External collaborators (translation provider, web-search provider, completion
provider, the pydantic output parser, and the chroma vector index) are modelled
as an `Env` of oracles: each oracle returns `Except String α`, where
`.error msg` models the call raising an exception whose `str(e)` is `msg`.

Python truthiness is modelled explicitly: an optional string is truthy iff it
is present and non-empty (`strTruthy`); a pydantic model object is always
truthy, so `state.get("parsed_oem_info")` is truthy iff the field is present
(`Option.isSome`).  Absent TypedDict keys and keys explicitly set to `None`
are both modelled as `none` (the only field ever explicitly set to `None` by a
node is `error`, which is only ever consumed through truthiness tests or
`state.get("error")`, where the two are indistinguishable).
-/

namespace Origyn

/-- Model of `OEMOutput` (models.py): pydantic model with two required string fields.
Being a structure, both fields are always populated. -/
structure OEMOutput where
  oem : String
  part_category : String
deriving DecidableEq, Repr

/-- Model of `PartInfoState` (models.py): the TypedDict state threaded through the
workflow.  `Optional` fields become `Option`; absent keys are `none`. -/
structure PartInfoState where
  original_query : String
  translated_query : Option String
  search_results : Option String
  llm_response_json : Option String
  parsed_oem_info : Option OEMOutput
  unspsc_family : Option String
  unspsc_code : Option String
  error : Option String
deriving DecidableEq, Repr

/-- Model of `OEMResult` (models.py): the final result model returned to users; all
five fields are (total) strings. -/
structure OEMResult where
  original_query : String
  oem : String
  part_category : String
  unspsc_code : String
  unspsc_family : String
deriving DecidableEq, Repr

/-- Python truthiness of an optional string: `None` and `""` are falsy,
any non-empty string is truthy. -/
def strTruthy : Option String → Bool
  | none => false
  | some s => !s.isEmpty

/-- Python `state.get("error") or error_msg`: the existing error if it is
truthy, otherwise the new message. -/
def pyOrStr (o : Option String) (msg : String) : Option String :=
  if strTruthy o then o else some msg

/-- Serialization `OEMOutput.model_dump_json` (pydantic v2 compact serialization):
`{"oem":...,"part_category":...}`. -/
def OEMOutput.model_dump_json (o : OEMOutput) : String :=
  "\x7b\"oem\":\"" ++ o.oem ++ "\",\"part_category\":\"" ++ o.part_category ++ "\"\x7d"

/-- Assembler `OEMResult.from_state` (models.py, lines 40–51): project a state into the
total result record.  `state.get("parsed_oem_info")` truthiness is `isSome`;
`state.get(k, "NA")` returns `"NA"` exactly when the key is absent. -/
def OEMResult.from_state (state : PartInfoState) : OEMResult :=
  let oem_info := state.parsed_oem_info
  { original_query := state.original_query
    oem := match oem_info with
      | some o => o.oem
      | none => "NA"
    part_category := match oem_info with
      | some o => o.part_category
      | none => "NA"
    unspsc_code := state.unspsc_code.getD "NA"
    unspsc_family := state.unspsc_family.getD "NA" }

/-- One item of the search provider's `search_data["items"]` list; each field
is read with `item.get(k, "N/A")`, so each is optional. -/
structure SearchItem where
  title : Option String
  link : Option String
  snippet : Option String
deriving DecidableEq, Repr

/-- One metadata entry of a chroma query result; `family` / `family_title`
are read with `.get(k, "na")`, so each is optional. -/
structure MetaEntry where
  family : Option String
  family_title : Option String
deriving DecidableEq, Repr

/-- The `results` dict of `VectorSearchAgent.search`, restricted to the parts
the node reads: the `metadatas` list of per-query metadata lists. -/
structure VQueryResults where
  metadatas : List (List MetaEntry)
deriving DecidableEq, Repr

/-- Environment of external collaborators.  Each `Except String` result
models the provider call either returning a value or raising an exception
with message `str(e)`. -/
structure Env where
  /-- Translation provider (translation_agent.py): original text ↦ final
  translated text (the original itself when already English). -/
  translateCall : String → Except String String
  /-- Search provider (search_agent.py): full query ↦ the `items` list
  (`[]` when the response has no items). -/
  searchCall : String → Except String (List SearchItem)
  /-- Completion provider (llm_agent.py): user content ↦ raw response text. -/
  llmCall : String → Except String String
  /-- Parser oracle `PydanticOutputParser(pydantic_object=OEMOutput).parse`: raw text ↦
  validated `OEMOutput`, or a validation exception. -/
  parseOEM : String → Except String OEMOutput
  /-- Construction oracle: `get_vectordb_path()` plus `VectorSearchAgent(vectordb_path)`
  construction (vector_search_agent.py, inside the `try`). -/
  vinit : Except String Unit
  /-- Query oracle `agent.search(part_category)`: `none` models a falsy `results` dict. -/
  vquery : String → Except String (Option VQueryResults)

/-- Stage `translating_agent_node` (translation_agent.py): on provider success set
`translated_query` and clear `error`; on exception set a translation error. -/
def translating_agent_node (env : Env) (state : PartInfoState) : PartInfoState :=
  match env.translateCall state.original_query with
  | .ok translated_text =>
      { state with translated_query := some translated_text, error := none }
  | .error e =>
      { state with error := some ("Translation error: " ++ e) }

/-- Needle-at-head test on character lists (Python substring machinery). -/
def headMatches : List Char → List Char → Bool
  | [], _ => true
  | _ :: _, [] => false
  | a :: as, b :: bs => a == b && headMatches as bs

/-- Occurrence test of a needle anywhere in a haystack (character lists). -/
def subSearch (needle : List Char) : List Char → Bool
  | [] => headMatches needle []
  | b :: bs => headMatches needle (b :: bs) || subSearch needle bs

/-- Python `needle in hay` for strings: substring containment. -/
def strContainsText (hay needle : String) : Bool :=
  subSearch needle.data hay.data

/-- One formatted block of `web_search_agent_node`'s result loop
(`Result {i}:` / `Title:` / `URL:` / `Snippet:`). -/
def formatItem (i : Nat) (it : SearchItem) : String :=
  "Result " ++ toString i ++ ":\n" ++
  "Title: " ++ it.title.getD "N/A" ++ "\n" ++
  "URL: " ++ it.link.getD "N/A" ++ "\n" ++
  "Snippet: " ++ it.snippet.getD "N/A" ++ "\n\n"

/-- The `enumerate(items, 1)` loop of `web_search_agent_node`. -/
def formatItems : Nat → List SearchItem → String
  | _, [] => ""
  | i, it :: rest => formatItem i it ++ formatItems (i + 1) rest

/-- Stage `web_search_agent_node` (search_agent.py): skip on truthy prior error;
error out when `translated_query` is falsy; otherwise search for
`query + " manufacturer"`, format up to the returned items into a text block,
and clear `error`; on provider exception set both the sentinel
`search_results` text and `error`. -/
def web_search_agent_node (env : Env) (state : PartInfoState) : PartInfoState :=
  if strTruthy state.error then state
  else
    match state.translated_query, strTruthy state.translated_query with
    | _, false =>
        { state with error := some "No translated query available for search." }
    | none, true => state  -- unreachable: truthiness requires a present value
    | some part_query, true =>
        let query := part_query ++ " manufacturer"
        match env.searchCall query with
        | .ok items =>
            let header := "Search results for part query: " ++ part_query ++ "\n\n"
            let formatted_results :=
              if items.isEmpty then header ++ "No search results found."
              else header ++ formatItems 1 items
            { state with search_results := some formatted_results, error := none }
        | .error e =>
            { state with
                search_results := some ("Error performing search: " ++ e),
                error := some ("Search error: " ++ e) }

/-- The canonical not-available answer `OEMOutput(oem="NA", part_category="NA")`
synthesized by `synthesize_oem_info_node`'s soft-failure path. -/
def na_output : OEMOutput := { oem := "NA", part_category := "NA" }

/-- Stage `synthesize_oem_info_node` (llm_agent.py): skip on truthy prior error; on
falsy `search_results` or a sentinel substring, store the canonical NA answer
(both its serialized form *and* `parsed_oem_info`) with a fixed error;
otherwise call the completion provider, store the raw response and clear
`error`; on provider exception set an LLM synthesis error. -/
def synthesize_oem_info_node (env : Env) (state : PartInfoState) : PartInfoState :=
  if strTruthy state.error then state
  else
    let search_results_content := state.search_results
    if !strTruthy search_results_content
        || strContainsText (search_results_content.getD "") "Error performing search"
        || strContainsText (search_results_content.getD "") "No search results found" then
      { state with
          llm_response_json := some na_output.model_dump_json,
          parsed_oem_info := some na_output,
          error := some "No valid search results for synthesis." }
    else
      match env.llmCall (search_results_content.getD "") with
      | .ok llm_response =>
          { state with llm_response_json := some llm_response, error := none }
      | .error e =>
          { state with error := some ("LLM synthesis error: " ++ e) }

/-- Stage `parse_llm_output_node` (llm_agent.py): skip when `error` is truthy AND
`llm_response_json is None`; error out when `llm_response_json` is falsy;
otherwise parse — on success set `parsed_oem_info` and keep `error` exactly
as it was, on failure overwrite `error` with a message embedding the raw
response text. -/
def parse_llm_output_node (env : Env) (state : PartInfoState) : PartInfoState :=
  if strTruthy state.error && state.llm_response_json.isNone then state
  else
    match state.llm_response_json, strTruthy state.llm_response_json with
    | _, false =>
        { state with error := some "No LLM response to parse." }
    | none, true => state  -- unreachable: truthiness requires a present value
    | some llm_json_response, true =>
        match env.parseOEM llm_json_response with
        | .ok parsed_data =>
            { state with parsed_oem_info := some parsed_data, error := state.error }
        | .error e =>
            { state with
                error := some ("Parsing error: " ++ e ++
                  ". Original LLM response: " ++ llm_json_response) }

/-- The category extraction of `vector_search_agent_node`, line 66:
`state.get("parsed_oem_info").part_category if state.get("parsed_oem_info") else "na"`. -/
def extractedCategory (state : PartInfoState) : String :=
  match state.parsed_oem_info with
  | some o => o.part_category
  | none => "na"

/-- The chroma no-hit test of `vector_search_agent_node`:
`not results or not results['metadatas'] or not results['metadatas'][0]`. -/
def vsNoHits : Option VQueryResults → Bool
  | none => true
  | some results =>
      match results.metadatas with
      | [] => true
      | m0 :: _ => m0.isEmpty

/-- Stage `vector_search_agent_node` (vector_search_agent.py): skip when `error` is
truthy AND `parsed_oem_info` is absent; inside the `try`, construct the agent,
extract the category (default `"na"`); on category `"na"` degrade to
`"na"/"na"` with `error or "No valid part category"`; otherwise query the
index — no hits degrade to `"na"/"na"` preserving `error` verbatim, a hit
stores `family` / `family_title` (default `"na"`); any exception keeps every
field except `error := error or "Vector search error: ..."`. -/
def vector_search_agent_node (env : Env) (state : PartInfoState) : PartInfoState :=
  if strTruthy state.error && !state.parsed_oem_info.isSome then state
  else
    match env.vinit with
    | .error e =>
        { state with error := pyOrStr state.error ("Vector search error: " ++ e) }
    | .ok () =>
        let part_category := extractedCategory state
        if part_category == "na" then
          { state with
              unspsc_code := some "na", unspsc_family := some "na",
              error := pyOrStr state.error "No valid part category" }
        else
          match env.vquery part_category with
          | .error e =>
              { state with error := pyOrStr state.error ("Vector search error: " ++ e) }
          | .ok results =>
              match results, results.bind (fun r => r.metadatas.head?) with
              | none, _ =>
                  { state with
                      unspsc_code := some "na", unspsc_family := some "na",
                      error := state.error }
              | some _, none =>
                  { state with
                      unspsc_code := some "na", unspsc_family := some "na",
                      error := state.error }
              | some _, some [] =>
                  { state with
                      unspsc_code := some "na", unspsc_family := some "na",
                      error := state.error }
              | some _, some (m :: _) =>
                  { state with
                      unspsc_code := some (m.family.getD "na"),
                      unspsc_family := some (m.family_title.getD "na"),
                      error := state.error }

/-- The initial state of `OEMWorkflow.run`: `inputs = {"original_query": q}`,
every other TypedDict key absent. -/
def initState (q : String) : PartInfoState :=
  { original_query := q
    translated_query := none
    search_results := none
    llm_response_json := none
    parsed_oem_info := none
    unspsc_family := none
    unspsc_code := none
    error := none }

/-- The fixed linear graph of `OEMWorkflow._build_workflow`:
translate → search → synthesize → parse_output → vector_search. -/
def runPipeline (env : Env) (q : String) : PartInfoState :=
  vector_search_agent_node env
    (parse_llm_output_node env
      (synthesize_oem_info_node env
        (web_search_agent_node env
          (translating_agent_node env (initState q)))))

/-- Runner `OEMWorkflow.run` (workflow.py): invoke the graph on the initial state and
project the final state through `OEMResult.from_state`. -/
def run (env : Env) (part_query : String) : OEMResult :=
  OEMResult.from_state (runPipeline env part_query)

/-- The spec's taxonomy-pairing invariant (§3): `unspsc_code` / `unspsc_family`
are both absent, both the `"na"` marker, or both non-`"na"` values. -/
def unspscConsistent (s : PartInfoState) : Prop :=
  (s.unspsc_code = none ∧ s.unspsc_family = none) ∨
  (s.unspsc_code = some "na" ∧ s.unspsc_family = some "na") ∨
  (∃ c f, s.unspsc_code = some c ∧ s.unspsc_family = some f ∧ c ≠ "na" ∧ f ≠ "na")

/-- A metadata entry obeying the §6 vector-index interface contract: both
`family` and `family_title` present, with genuine (non-marker) values. -/
def goodMeta (m : MetaEntry) : Prop :=
  ∃ c f, m.family = some c ∧ m.family_title = some f ∧ c ≠ "na" ∧ f ≠ "na"

/-- An environment whose vector index honours the §6 interface contract:
every metadata entry it returns is a `goodMeta`. -/
def goodEnv (env : Env) : Prop :=
  ∀ c r, env.vquery c = .ok (some r) → ∀ ms ∈ r.metadatas, ∀ m ∈ ms, goodMeta m

/-- A concrete stand-in for `PydanticOutputParser(OEMOutput).parse`, used to
instantiate witnesses: it accepts the canonical NA serialization and one
well-formed answer, and rejects everything else. -/
def parseOEMTable : String → Except String OEMOutput := fun s =>
  if s = na_output.model_dump_json then .ok na_output
  else if s = "\x7b\"oem\":\"skf\",\"part_category\":\"bearings\"\x7d" then
    .ok { oem := "skf", part_category := "bearings" }
  else .error "Failed to parse OEMOutput"

/-- The top-hit metadata entry of the concrete witness environments. -/
def hitMeta : MetaEntry :=
  { family := some "31", family_title := some "bearings and bearing devices" }

/-- Fully successful concrete environment (the spec's end-to-end scenario A). -/
def envHit : Env :=
  { translateCall := fun t => .ok t
    searchCall := fun _ =>
      .ok [{ title := some "SKF", link := some "skf.com", snippet := some "SKF bearings" }]
    llmCall := fun _ => .ok "\x7b\"oem\":\"skf\",\"part_category\":\"bearings\"\x7d"
    parseOEM := parseOEMTable
    vinit := .ok ()
    vquery := fun _ => .ok (some { metadatas := [[hitMeta]] }) }

/-- Environment whose search succeeds with zero items (soft-failure path). -/
def envSoft : Env := { envHit with searchCall := fun _ => .ok [] }

/-- Environment whose search provider raises (scenario B). -/
def envRaise : Env := { envHit with searchCall := fun _ => .error "timeout" }

/-- Environment whose vector index returns zero neighbors. -/
def envNoHits : Env := { envHit with vquery := fun _ => .ok (some { metadatas := [] }) }

/-- Environment whose completion provider returns malformed text (scenario C). -/
def envMalformed : Env := { envHit with llmCall := fun _ => .ok "garbage" }

/-- Environment whose vector query raises. -/
def envVRaise : Env := { envHit with vquery := fun _ => .error "boom" }

/-- Environment whose vector agent construction raises. -/
def envVInitRaise : Env := { envHit with vinit := .error "db down" }

/-- A state carrying a valid classification, with all other optionals absent. -/
def sClassified : PartInfoState :=
  { initState "q" with parsed_oem_info := some { oem := "skf", part_category := "bearings" } }

/-! Helper lemmas. -/

theorem append_isEmpty_false (s t : String) (h : s.isEmpty = false) :
    (s ++ t).isEmpty = false := by
  rw [Bool.eq_false_iff] at *
  intro hc
  apply h
  rw [String.isEmpty_iff] at *
  have h2 := congrArg String.data hc
  rw [String.data_append] at h2
  exact String.ext (List.append_eq_nil.mp h2).1

theorem strTruthy_append (s t : String) (h : s.isEmpty = false) :
    strTruthy (some (s ++ t)) = true := by
  simp [strTruthy, append_isEmpty_false s t h]

/-- Fields the translation stage never writes. -/
theorem translating_frame (env : Env) (s : PartInfoState) :
    (translating_agent_node env s).original_query = s.original_query ∧
    (translating_agent_node env s).search_results = s.search_results ∧
    (translating_agent_node env s).llm_response_json = s.llm_response_json ∧
    (translating_agent_node env s).parsed_oem_info = s.parsed_oem_info ∧
    (translating_agent_node env s).unspsc_code = s.unspsc_code ∧
    (translating_agent_node env s).unspsc_family = s.unspsc_family := by
  unfold translating_agent_node
  split <;> simp

/-- Fields the search stage never writes. -/
theorem web_search_frame (env : Env) (s : PartInfoState) :
    (web_search_agent_node env s).original_query = s.original_query ∧
    (web_search_agent_node env s).translated_query = s.translated_query ∧
    (web_search_agent_node env s).llm_response_json = s.llm_response_json ∧
    (web_search_agent_node env s).parsed_oem_info = s.parsed_oem_info ∧
    (web_search_agent_node env s).unspsc_code = s.unspsc_code ∧
    (web_search_agent_node env s).unspsc_family = s.unspsc_family := by
  unfold web_search_agent_node
  refine ⟨?_, ?_, ?_, ?_, ?_, ?_⟩ <;> (repeat' (first | split | dsimp only))

/-- Fields the synthesis stage never writes. -/
theorem synthesize_frame (env : Env) (s : PartInfoState) :
    (synthesize_oem_info_node env s).original_query = s.original_query ∧
    (synthesize_oem_info_node env s).translated_query = s.translated_query ∧
    (synthesize_oem_info_node env s).search_results = s.search_results ∧
    (synthesize_oem_info_node env s).unspsc_code = s.unspsc_code ∧
    (synthesize_oem_info_node env s).unspsc_family = s.unspsc_family := by
  unfold synthesize_oem_info_node
  refine ⟨?_, ?_, ?_, ?_, ?_⟩ <;> (repeat' (first | split | dsimp only))

/-- Fields the parsing stage never writes. -/
theorem parse_frame (env : Env) (s : PartInfoState) :
    (parse_llm_output_node env s).original_query = s.original_query ∧
    (parse_llm_output_node env s).translated_query = s.translated_query ∧
    (parse_llm_output_node env s).search_results = s.search_results ∧
    (parse_llm_output_node env s).llm_response_json = s.llm_response_json ∧
    (parse_llm_output_node env s).unspsc_code = s.unspsc_code ∧
    (parse_llm_output_node env s).unspsc_family = s.unspsc_family := by
  unfold parse_llm_output_node
  refine ⟨?_, ?_, ?_, ?_, ?_, ?_⟩ <;> (repeat' (first | split | dsimp only))

/-- Fields the classification stage never writes. -/
theorem vector_frame (env : Env) (s : PartInfoState) :
    (vector_search_agent_node env s).original_query = s.original_query ∧
    (vector_search_agent_node env s).translated_query = s.translated_query ∧
    (vector_search_agent_node env s).search_results = s.search_results ∧
    (vector_search_agent_node env s).llm_response_json = s.llm_response_json ∧
    (vector_search_agent_node env s).parsed_oem_info = s.parsed_oem_info := by
  unfold vector_search_agent_node
  refine ⟨?_, ?_, ?_, ?_, ?_⟩ <;> (repeat' (first | split | dsimp only))

/-- Parsing stage, skip case: truthy prior error and nothing to parse. -/
theorem parse_skip_case (env : Env) (s : PartInfoState)
    (he : strTruthy s.error = true) (hj : s.llm_response_json = none) :
    parse_llm_output_node env s = s := by
  unfold parse_llm_output_node
  rw [hj, he]
  simp

/-- Parsing stage, success case: a present, non-empty response that validates
sets `parsed_oem_info` and leaves every other field — `error` included —
exactly as it was. -/
theorem parse_ok_case (env : Env) (s : PartInfoState) (j : String) (d : OEMOutput)
    (hj : s.llm_response_json = some j) (hne : j.isEmpty = false)
    (hp : env.parseOEM j = .ok d) :
    parse_llm_output_node env s = { s with parsed_oem_info := some d } := by
  unfold parse_llm_output_node
  rw [hj]
  simp [strTruthy, hne, hp]

/-- Parsing stage, validation-failure case: `error` is overwritten with a
message embedding the offending raw text; no other field changes. -/
theorem parse_error_case (env : Env) (s : PartInfoState) (j e : String)
    (hj : s.llm_response_json = some j) (hne : j.isEmpty = false)
    (hp : env.parseOEM j = .error e) :
    parse_llm_output_node env s =
      { s with error := some ("Parsing error: " ++ e ++
          ". Original LLM response: " ++ j) } := by
  unfold parse_llm_output_node
  rw [hj]
  simp [strTruthy, hne, hp]

/-- The classification stage maps a record it does not skip, under the §6
index contract, to a record whose taxonomy pair is unchanged, both-`"na"`,
or both genuine values. -/
theorem vector_preserves_unspscConsistent (env : Env) (s : PartInfoState)
    (hg : goodEnv env) (hs : unspscConsistent s) :
    unspscConsistent (vector_search_agent_node env s) := by
  unfold vector_search_agent_node
  split
  · exact hs
  · split
    · exact hs
    · dsimp only
      split
      · exact Or.inr (Or.inl ⟨rfl, rfl⟩)
      · split
        · exact hs
        · rename_i results heq
          rcases results with _ | r
          · exact Or.inr (Or.inl ⟨rfl, rfl⟩)
          · obtain ⟨ms⟩ := r
            rcases ms with _ | ⟨m0, t0⟩
            · exact Or.inr (Or.inl ⟨rfl, rfl⟩)
            · rcases m0 with _ | ⟨m, t1⟩
              · exact Or.inr (Or.inl ⟨rfl, rfl⟩)
              · obtain ⟨c, f, hc, hf, hcn, hfn⟩ :=
                  hg (extractedCategory s) ⟨(m :: t1) :: t0⟩ heq (m :: t1)
                    (by simp) m (by simp)
                refine Or.inr (Or.inr ⟨c, f, ?_, ?_, hcn, hfn⟩)
                · show some (m.family.getD "na") = some c
                  rw [hc]
                  rfl
                · show some (m.family_title.getD "na") = some f
                  rw [hf]
                  rfl

/-! Claims. -/

/-- C1: the Output Assembler `OEMResult.from_state` is a total function (it is
a plain Lean function into `OEMResult`, whose five fields are all `String`s,
so it never fails and never raises); it copies `original_query` through, maps
an absent classification to `oem = part_category = "NA"`, and maps absent
`unspsc_code` / `unspsc_family` to `"NA"`. -/
theorem C1_assembler_total_defaults (s : PartInfoState) :
    (OEMResult.from_state s).original_query = s.original_query ∧
    (s.parsed_oem_info = none →
      (OEMResult.from_state s).oem = "NA" ∧ (OEMResult.from_state s).part_category = "NA") ∧
    (s.unspsc_code = none → (OEMResult.from_state s).unspsc_code = "NA") ∧
    (s.unspsc_family = none → (OEMResult.from_state s).unspsc_family = "NA") := by
  refine ⟨rfl, ?_, ?_, ?_⟩ <;> intro h <;> simp [OEMResult.from_state, h]

/-- Witness for C1 at the concrete all-absent record `initState "q"`. -/
theorem C1_assembler_witness :
    (OEMResult.from_state (initState "q")).original_query = "q" ∧
    (OEMResult.from_state (initState "q")).oem = "NA" ∧
    (OEMResult.from_state (initState "q")).part_category = "NA" ∧
    (OEMResult.from_state (initState "q")).unspsc_code = "NA" ∧
    (OEMResult.from_state (initState "q")).unspsc_family = "NA" := by
  obtain ⟨h1, h2, h3, h4⟩ := C1_assembler_total_defaults (initState "q")
  exact ⟨h1, (h2 rfl).1, (h2 rfl).2, h3 rfl, h4 rfl⟩

/-- C3: no stage of the pipeline ever mutates `original_query`, and
`run env q` returns it unchanged in the result — no trimming, no
normalization, for every environment and every query string. -/
theorem C3_original_query_identity :
    (∀ env s, (translating_agent_node env s).original_query = s.original_query) ∧
    (∀ env s, (web_search_agent_node env s).original_query = s.original_query) ∧
    (∀ env s, (synthesize_oem_info_node env s).original_query = s.original_query) ∧
    (∀ env s, (parse_llm_output_node env s).original_query = s.original_query) ∧
    (∀ env s, (vector_search_agent_node env s).original_query = s.original_query) ∧
    (∀ env q, (run env q).original_query = q) := by
  refine ⟨fun env s => (translating_frame env s).1, fun env s => (web_search_frame env s).1,
    fun env s => (synthesize_frame env s).1, fun env s => (parse_frame env s).1,
    fun env s => (vector_frame env s).1, fun env q => ?_⟩
  show (runPipeline env q).original_query = q
  unfold runPipeline
  rw [(vector_frame _ _).1, (parse_frame _ _).1, (synthesize_frame _ _).1,
    (web_search_frame _ _).1, (translating_frame _ _).1]
  rfl

/-- C2: when the search stage's provider call raises (translation having
succeeded with a non-empty query, so the provider call is actually reached),
the synthesis, parsing and classification stages all skip — each returns the
record unchanged — and the final result is the all-`"NA"` record carrying the
original query. -/
theorem C2_search_raise_all_na (env : Env) (q t e : String)
    (ht : env.translateCall q = .ok t) (htt : t.isEmpty = false)
    (hs : env.searchCall (t ++ " manufacturer") = .error e) :
    synthesize_oem_info_node env
        (web_search_agent_node env (translating_agent_node env (initState q))) =
      web_search_agent_node env (translating_agent_node env (initState q)) ∧
    parse_llm_output_node env
        (web_search_agent_node env (translating_agent_node env (initState q))) =
      web_search_agent_node env (translating_agent_node env (initState q)) ∧
    vector_search_agent_node env
        (web_search_agent_node env (translating_agent_node env (initState q))) =
      web_search_agent_node env (translating_agent_node env (initState q)) ∧
    run env q = { original_query := q
                  oem := "NA"
                  part_category := "NA"
                  unspsc_code := "NA"
                  unspsc_family := "NA" } := by
  have h1 : translating_agent_node env (initState q) =
      { initState q with translated_query := some t, error := none } := by
    unfold translating_agent_node
    rw [show (initState q).original_query = q from rfl, ht]
    rfl
  have h2 : web_search_agent_node env (translating_agent_node env (initState q)) =
      { initState q with
          translated_query := some t
          search_results := some ("Error performing search: " ++ e)
          error := some ("Search error: " ++ e) } := by
    rw [h1]
    simp [web_search_agent_node, strTruthy, htt, hs, initState]
  have herr : ("Search error: " ++ e).isEmpty = false :=
    append_isEmpty_false _ _ (by decide)
  have h3 : synthesize_oem_info_node env
      (web_search_agent_node env (translating_agent_node env (initState q))) =
      web_search_agent_node env (translating_agent_node env (initState q)) := by
    rw [h2]
    simp [synthesize_oem_info_node, strTruthy, herr]
  have h4 : parse_llm_output_node env
      (web_search_agent_node env (translating_agent_node env (initState q))) =
      web_search_agent_node env (translating_agent_node env (initState q)) := by
    rw [h2]
    simp [parse_llm_output_node, strTruthy, herr, initState]
  have h5 : vector_search_agent_node env
      (web_search_agent_node env (translating_agent_node env (initState q))) =
      web_search_agent_node env (translating_agent_node env (initState q)) := by
    rw [h2]
    simp [vector_search_agent_node, strTruthy, herr, initState]
  refine ⟨h3, h4, h5, ?_⟩
  show OEMResult.from_state (runPipeline env q) =
    { original_query := q
      oem := "NA"
      part_category := "NA"
      unspsc_code := "NA"
      unspsc_family := "NA" }
  unfold runPipeline
  rw [h3, h4, h5, h2]
  simp [OEMResult.from_state, initState]

/-- Witness for C2: the concrete environment `envRaise`, whose search provider
raises a timeout, yields the all-`"NA"` result (scenario B of the spec). -/
theorem C2_search_raise_witness :
    run envRaise "SKF 6205" = { original_query := "SKF 6205"
                                oem := "NA"
                                part_category := "NA"
                                unspsc_code := "NA"
                                unspsc_family := "NA" } :=
  (C2_search_raise_all_na envRaise "SKF 6205" "SKF 6205" "timeout" rfl (by decide) rfl).2.2.2

/-- C4 counterexample: under `envSoft` the record reaching the classification
stage carries the canonical not-available answer produced by the synthesis
soft-failure path (`part_category = "NA"`, uppercase), yet the stage does NOT
take the degraded path: the code compares against the lowercase `"na"`, so it
invokes the vector index with query `"NA"` and stores the index's real answer
`"31"` — not `"na"` — refuting the claim's final clause at a concrete input. -/
theorem C4_counterexample :
    (parse_llm_output_node envSoft (synthesize_oem_info_node envSoft
        (web_search_agent_node envSoft (translating_agent_node envSoft
          (initState "SKF 6205"))))).parsed_oem_info = some na_output ∧
    na_output.part_category = "NA" ∧
    (runPipeline envSoft "SKF 6205").unspsc_code = some "31" ∧
    (runPipeline envSoft "SKF 6205").unspsc_code ≠ some "na" ∧
    (runPipeline envSoft "SKF 6205").unspsc_family = some "bearings and bearing devices" := by
  decide

/-- C4 amended: for a record that reaches the classification stage (skip
predicate false) whose extracted category is exactly the lowercase marker
`"na"`, and whose vector-agent construction succeeds, the stage sets both
taxonomy fields to `"na"`, sets `error` to the prior error when one is
present and otherwise to the "No valid part category" message, and does not
invoke the vector index: its output is identical under any other environment
whose construction also succeeds, whatever that environment's `vquery` is.
The canonical not-available answer from the synthesis stage carries
`part_category = "NA"` (uppercase), which is NOT the lowercase marker, so
that record does not take this degraded path (see the counterexample). -/
theorem C4_amended_degraded_path (env env2 : Env) (s : PartInfoState)
    (hinit : env.vinit = .ok ()) (hinit2 : env2.vinit = .ok ())
    (hskip : (strTruthy s.error && !s.parsed_oem_info.isSome) = false)
    (hcat : extractedCategory s = "na") :
    vector_search_agent_node env s =
      { s with
          unspsc_code := some "na"
          unspsc_family := some "na"
          error := pyOrStr s.error "No valid part category" } ∧
    vector_search_agent_node env2 s = vector_search_agent_node env s := by
  have key : ∀ e3 : Env, e3.vinit = .ok () →
      vector_search_agent_node e3 s =
        { s with
            unspsc_code := some "na"
            unspsc_family := some "na"
            error := pyOrStr s.error "No valid part category" } := by
    intro e3 h3
    unfold vector_search_agent_node
    rw [hskip, h3]
    simp [hcat]
  exact ⟨key env hinit, (key env2 hinit2).trans (key env hinit).symm⟩

/-- Witness for C4 amended: `initState "q"` has no classification, so the
category defaults to `"na"`; under `envHit` and `envNoHits` (which differ in
their vector query) the degraded path gives identical records. -/
theorem C4_amended_witness :
    vector_search_agent_node envHit (initState "q") =
      { initState "q" with
          unspsc_code := some "na"
          unspsc_family := some "na"
          error := some "No valid part category" } ∧
    vector_search_agent_node envNoHits (initState "q") =
      vector_search_agent_node envHit (initState "q") := by
  have h := C4_amended_degraded_path envHit envNoHits (initState "q") rfl rfl rfl rfl
  refine ⟨?_, h.2⟩
  rw [h.1]
  rfl

/-- C5 counterexample: under `envSoft`, the record entering the synthesis
stage has no classification, yet the record leaving it — before the parsing
stage ever runs — already has `parsed_oem_info = some na_output`: the
classification field is set by the synthesis stage's soft-failure path, not
only after `synthesis_output` has been parsed by the parsing stage. -/
theorem C5_counterexample :
    (web_search_agent_node envSoft (translating_agent_node envSoft
        (initState "SKF 6205"))).parsed_oem_info = none ∧
    (synthesize_oem_info_node envSoft (web_search_agent_node envSoft
        (translating_agent_node envSoft (initState "SKF 6205")))).parsed_oem_info =
      some na_output := by
  decide

/-- C5 amended: `parsed_oem_info` changes in exactly two ways — the parsing
stage sets it after `llm_response_json` parses successfully, and the
synthesis stage's soft-failure path sets it to the canonical `na_output`
together with that answer's serialization in `llm_response_json`; the
translation, search and classification stages never change it.  Whenever it
is set it is a complete `OEMOutput` (both fields present, by the structure
type — never partially populated). -/
theorem C5_amended_classification_origin (env : Env) (s : PartInfoState) :
    ((synthesize_oem_info_node env s).parsed_oem_info = s.parsed_oem_info ∨
      ((synthesize_oem_info_node env s).parsed_oem_info = some na_output ∧
        (synthesize_oem_info_node env s).llm_response_json =
          some na_output.model_dump_json)) ∧
    ((parse_llm_output_node env s).parsed_oem_info = s.parsed_oem_info ∨
      (∃ j d, s.llm_response_json = some j ∧ env.parseOEM j = .ok d ∧
        (parse_llm_output_node env s).parsed_oem_info = some d)) ∧
    (translating_agent_node env s).parsed_oem_info = s.parsed_oem_info ∧
    (web_search_agent_node env s).parsed_oem_info = s.parsed_oem_info ∧
    (vector_search_agent_node env s).parsed_oem_info = s.parsed_oem_info := by
  refine ⟨?_, ?_, (translating_frame env s).2.2.2.1, (web_search_frame env s).2.2.2.1,
    (vector_frame env s).2.2.2.2⟩
  · unfold synthesize_oem_info_node
    split
    · left; rfl
    · dsimp only
      split
      · right; exact ⟨rfl, rfl⟩
      · split
        · left; rfl
        · left; rfl
  · unfold parse_llm_output_node
    split
    · left; rfl
    · split
      · left; rfl
      · left; rfl
      · rename_i j hj htj
        split
        · rename_i d hd
          right
          exact ⟨j, d, hj, hd, rfl⟩
        · left; rfl

/-- C6 counterexample: under `envNoHits` the index is queried with the valid
category `"bearings"` and returns zero neighbors; the final result then
carries the stage's stored lowercase `"na"` marker verbatim — not the
Assembler's `"NA"` default the claim asserts. -/
theorem C6_counterexample :
    (parse_llm_output_node envNoHits (synthesize_oem_info_node envNoHits
        (web_search_agent_node envNoHits (translating_agent_node envNoHits
          (initState "SKF 6205"))))).parsed_oem_info =
      some { oem := "skf", part_category := "bearings" } ∧
    envNoHits.vquery "bearings" = .ok (some { metadatas := [] }) ∧
    (run envNoHits "SKF 6205").unspsc_code = "na" ∧
    (run envNoHits "SKF 6205").unspsc_family = "na" ∧
    (run envNoHits "SKF 6205").unspsc_code ≠ "NA" := by
  exact ⟨rfl, rfl, rfl, rfl, by decide⟩

/-- C6 amended: when the classification stage queries the index with a valid
(non-`"na"`) category and gets zero neighbors, it stores the lowercase
marker in both taxonomy fields, leaves every other field (including any
prior `error`) unchanged, and the final Result shows
`unspsc_code = unspsc_family = "na"` — the stored value passes through the
Assembler verbatim; the `"NA"` default applies only to absent fields. -/
theorem C6_amended_no_hits_na (env : Env) (s : PartInfoState)
    (hskip : (strTruthy s.error && !s.parsed_oem_info.isSome) = false)
    (hinit : env.vinit = .ok ())
    (hcat : extractedCategory s ≠ "na")
    (res : Option VQueryResults)
    (hq : env.vquery (extractedCategory s) = .ok res)
    (hnh : vsNoHits res = true) :
    vector_search_agent_node env s =
      { s with unspsc_code := some "na", unspsc_family := some "na" } ∧
    (OEMResult.from_state (vector_search_agent_node env s)).unspsc_code = "na" ∧
    (OEMResult.from_state (vector_search_agent_node env s)).unspsc_family = "na" := by
  have h : vector_search_agent_node env s =
      { s with unspsc_code := some "na", unspsc_family := some "na" } := by
    unfold vector_search_agent_node
    rw [hskip, hinit]
    rcases res with _ | r
    · simp [hq, hcat]
    · rcases hm : r.metadatas with _ | ⟨m0, tail⟩
      · simp [hq, hcat, hm]
      · have hm0 : m0 = [] := by
          simpa [vsNoHits, hm] using hnh
        subst hm0
        simp [hq, hcat, hm]
  exact ⟨h, by simp [h, OEMResult.from_state], by simp [h, OEMResult.from_state]⟩

/-- Witness for C6 amended: `sClassified` (category `"bearings"`) under
`envNoHits`, whose index returns an empty neighbor list. -/
theorem C6_amended_witness :
    vector_search_agent_node envNoHits sClassified =
      { sClassified with unspsc_code := some "na", unspsc_family := some "na" } ∧
    (OEMResult.from_state (vector_search_agent_node envNoHits sClassified)).unspsc_code = "na" ∧
    (OEMResult.from_state (vector_search_agent_node envNoHits sClassified)).unspsc_family = "na" :=
  C6_amended_no_hits_na envNoHits sClassified (by decide) rfl (by decide)
    (some { metadatas := [] }) rfl rfl

/-- C7: the parsing stage skips (returns the record unchanged) when `error`
is present (truthy) and `synthesis_output` is absent; when `synthesis_output`
is present (and non-empty — an empty string cannot validate against the
schema and is routed to the "No LLM response to parse." branch instead) and
parses successfully, the stage sets `classification` and preserves any
pre-existing `error` value verbatim; when validation fails it overwrites
`error` with a parsing-failure message embedding the offending raw text. -/
theorem C7_parse_stage_contract (env : Env) (s : PartInfoState) :
    (strTruthy s.error = true → s.llm_response_json = none →
      parse_llm_output_node env s = s) ∧
    (∀ j d, s.llm_response_json = some j → j.isEmpty = false →
      env.parseOEM j = .ok d →
      parse_llm_output_node env s = { s with parsed_oem_info := some d }) ∧
    (∀ j e, s.llm_response_json = some j → j.isEmpty = false →
      env.parseOEM j = .error e →
      parse_llm_output_node env s =
        { s with error := some ("Parsing error: " ++ e ++
            ". Original LLM response: " ++ j) }) :=
  ⟨fun he hj => parse_skip_case env s he hj,
   fun j d hj hne hp => parse_ok_case env s j d hj hne hp,
   fun j e hj hne hp => parse_error_case env s j e hj hne hp⟩

/-- Witness for C7: the three cases at concrete records under `envHit`
(whose parser accepts the canonical NA serialization and rejects "garbage"). -/
theorem C7_parse_witness :
    parse_llm_output_node envHit { initState "q" with error := some "boom" } =
      { initState "q" with error := some "boom" } ∧
    parse_llm_output_node envHit
        { initState "q" with llm_response_json := some na_output.model_dump_json } =
      { initState "q" with
          llm_response_json := some na_output.model_dump_json
          parsed_oem_info := some na_output } ∧
    parse_llm_output_node envHit { initState "q" with llm_response_json := some "garbage" } =
      { initState "q" with
          llm_response_json := some "garbage"
          error := some ("Parsing error: " ++ "Failed to parse OEMOutput" ++
            ". Original LLM response: " ++ "garbage") } :=
  ⟨(C7_parse_stage_contract envHit _).1 (by decide) rfl,
   (C7_parse_stage_contract envHit _).2.1 na_output.model_dump_json na_output rfl
     (by decide) rfl,
   (C7_parse_stage_contract envHit _).2.2 "garbage" "Failed to parse OEMOutput" rfl
     (by decide) rfl⟩

/-- C8 counterexample: under `envMalformed` (completion returns text the
schema rejects) the parsing stage records the failure and leaves
`classification` absent, but the classification stage does NOT set
`taxonomy_code = taxonomy_family = "na"` as the claim states: it skips,
returning the record unchanged with both fields still absent. -/
theorem C8_counterexample :
    (runPipeline envMalformed "SKF 6205").error =
      some "Parsing error: Failed to parse OEMOutput. Original LLM response: garbage" ∧
    (runPipeline envMalformed "SKF 6205").parsed_oem_info = none ∧
    (runPipeline envMalformed "SKF 6205").unspsc_code = none ∧
    (runPipeline envMalformed "SKF 6205").unspsc_code ≠ some "na" ∧
    (runPipeline envMalformed "SKF 6205").unspsc_family ≠ some "na" ∧
    vector_search_agent_node envMalformed (parse_llm_output_node envMalformed
        (synthesize_oem_info_node envMalformed (web_search_agent_node envMalformed
          (translating_agent_node envMalformed (initState "SKF 6205"))))) =
      parse_llm_output_node envMalformed (synthesize_oem_info_node envMalformed
        (web_search_agent_node envMalformed (translating_agent_node envMalformed
          (initState "SKF 6205")))) :=
  ⟨rfl, rfl, rfl, by decide, by decide, rfl⟩

/-- C8 amended: when the completion output fails schema validation, the
parsing stage records a parsing-failure error and leaves `classification`
absent; the classification stage then SKIPS — returns the record unchanged,
leaving `taxonomy_code` / `taxonomy_family` exactly as before (absent in a
run that reached synthesis normally) — and the Assembler renders the absent
fields as `"NA"` in the final Result. -/
theorem C8_amended_parse_failure_skip (env : Env) (s : PartInfoState) (j e : String)
    (hpo : s.parsed_oem_info = none)
    (hj : s.llm_response_json = some j) (hjne : j.isEmpty = false)
    (hp : env.parseOEM j = .error e)
    (huc : s.unspsc_code = none) (huf : s.unspsc_family = none) :
    (parse_llm_output_node env s).error =
      some ("Parsing error: " ++ e ++ ". Original LLM response: " ++ j) ∧
    (parse_llm_output_node env s).parsed_oem_info = none ∧
    vector_search_agent_node env (parse_llm_output_node env s) =
      parse_llm_output_node env s ∧
    (OEMResult.from_state (vector_search_agent_node env
      (parse_llm_output_node env s))).unspsc_code = "NA" ∧
    (OEMResult.from_state (vector_search_agent_node env
      (parse_llm_output_node env s))).unspsc_family = "NA" := by
  have hparse := parse_error_case env s j e hj hjne hp
  have h1 : ("Parsing error: " ++ e).isEmpty = false :=
    append_isEmpty_false _ _ (by decide)
  have h2 : ("Parsing error: " ++ e ++ ". Original LLM response: ").isEmpty = false :=
    append_isEmpty_false _ _ h1
  have h3 : ("Parsing error: " ++ e ++ ". Original LLM response: " ++ j).isEmpty = false :=
    append_isEmpty_false _ _ h2
  have hvec : vector_search_agent_node env (parse_llm_output_node env s) =
      parse_llm_output_node env s := by
    rw [hparse]
    unfold vector_search_agent_node
    simp [strTruthy, h3, hpo]
  refine ⟨by rw [hparse], by rw [hparse]; exact hpo, hvec, ?_, ?_⟩ <;>
    rw [hvec, hparse] <;> simp [OEMResult.from_state, huc, huf]

/-- Witness for C8 amended: `envMalformed`'s parser rejects `"garbage"`. -/
theorem C8_amended_witness :
    (OEMResult.from_state (vector_search_agent_node envMalformed
      (parse_llm_output_node envMalformed
        { initState "q" with llm_response_json := some "garbage" }))).unspsc_code = "NA" ∧
    (OEMResult.from_state (vector_search_agent_node envMalformed
      (parse_llm_output_node envMalformed
        { initState "q" with llm_response_json := some "garbage" }))).unspsc_family = "NA" :=
  have h := C8_amended_parse_failure_skip envMalformed
    { initState "q" with llm_response_json := some "garbage" }
    "garbage" "Failed to parse OEMOutput" rfl rfl (by decide) rfl rfl rfl
  ⟨h.2.2.2.1, h.2.2.2.2⟩

/-- C9: under the §6 vector-index interface contract (`goodEnv`: returned
metadata always carries genuine `family` and `family_title` values), every
record produced by any stage of the pipeline — the initial record and the
outputs of all five stages — has `unspsc_code` / `unspsc_family` either both
absent, both the `"na"` marker, or both genuine values; never one without
the other, and never exactly one equal to `"na"`. -/
theorem C9_taxonomy_pairing (env : Env) (q : String) (hg : goodEnv env) :
    unspscConsistent (initState q) ∧
    unspscConsistent (translating_agent_node env (initState q)) ∧
    unspscConsistent (web_search_agent_node env (translating_agent_node env (initState q))) ∧
    unspscConsistent (synthesize_oem_info_node env (web_search_agent_node env
      (translating_agent_node env (initState q)))) ∧
    unspscConsistent (parse_llm_output_node env (synthesize_oem_info_node env
      (web_search_agent_node env (translating_agent_node env (initState q))))) ∧
    unspscConsistent (runPipeline env q) := by
  have base : ∀ s' : PartInfoState, s'.unspsc_code = none → s'.unspsc_family = none →
      unspscConsistent s' := fun s' hc hf => Or.inl ⟨hc, hf⟩
  have c1 : (translating_agent_node env (initState q)).unspsc_code = none := by
    rw [(translating_frame _ _).2.2.2.2.1]
    rfl
  have f1 : (translating_agent_node env (initState q)).unspsc_family = none := by
    rw [(translating_frame _ _).2.2.2.2.2]
    rfl
  have c2 : (web_search_agent_node env (translating_agent_node env
      (initState q))).unspsc_code = none := by
    rw [(web_search_frame _ _).2.2.2.2.1]
    exact c1
  have f2 : (web_search_agent_node env (translating_agent_node env
      (initState q))).unspsc_family = none := by
    rw [(web_search_frame _ _).2.2.2.2.2]
    exact f1
  have c3 : (synthesize_oem_info_node env (web_search_agent_node env
      (translating_agent_node env (initState q)))).unspsc_code = none := by
    rw [(synthesize_frame _ _).2.2.2.1]
    exact c2
  have f3 : (synthesize_oem_info_node env (web_search_agent_node env
      (translating_agent_node env (initState q)))).unspsc_family = none := by
    rw [(synthesize_frame _ _).2.2.2.2]
    exact f2
  have c4 : (parse_llm_output_node env (synthesize_oem_info_node env
      (web_search_agent_node env (translating_agent_node env
        (initState q))))).unspsc_code = none := by
    rw [(parse_frame _ _).2.2.2.2.1]
    exact c3
  have f4 : (parse_llm_output_node env (synthesize_oem_info_node env
      (web_search_agent_node env (translating_agent_node env
        (initState q))))).unspsc_family = none := by
    rw [(parse_frame _ _).2.2.2.2.2]
    exact f3
  exact ⟨base _ rfl rfl, base _ c1 f1, base _ c2 f2, base _ c3 f3, base _ c4 f4,
    vector_preserves_unspscConsistent env _ hg (base _ c4 f4)⟩

/-- Witness for C9: the fully successful `envHit` (whose index honours the
interface contract) keeps the taxonomy pair consistent end to end. -/
theorem C9_taxonomy_witness : unspscConsistent (runPipeline envHit "SKF 6205") := by
  have hg : goodEnv envHit := by
    intro c r h ms hms m hm
    have hr : r = { metadatas := [[hitMeta]] } := by
      have h2 : (Except.ok (some ({ metadatas := [[hitMeta]] } : VQueryResults)) :
          Except String (Option VQueryResults)) = .ok (some r) := h
      simpa using h2.symm
    subst hr
    simp only [List.mem_singleton] at hms
    subst hms
    simp only [List.mem_singleton] at hm
    subst hm
    exact ⟨"31", "bearings and bearing devices", rfl, rfl, by decide, by decide⟩
  exact (C9_taxonomy_pairing envHit "SKF 6205" hg).2.2.2.2.2

/-- C10: when the classification stage's vector-index interaction raises —
either at agent construction or at the query itself — and the skip check did
not apply, the returned record is the input record with every field
unchanged except `error`, which becomes the prior error when one is present
and otherwise the new vector-search-failure message. -/
theorem C10_vector_exception_frame (env : Env) (s : PartInfoState) (e : String)
    (hskip : (strTruthy s.error && !s.parsed_oem_info.isSome) = false) :
    (env.vinit = .error e →
      vector_search_agent_node env s =
        { s with error := pyOrStr s.error ("Vector search error: " ++ e) }) ∧
    (env.vinit = .ok () → extractedCategory s ≠ "na" →
      env.vquery (extractedCategory s) = .error e →
      vector_search_agent_node env s =
        { s with error := pyOrStr s.error ("Vector search error: " ++ e) }) := by
  constructor
  · intro h
    unfold vector_search_agent_node
    rw [hskip, h]
    rfl
  · intro h hcat hq
    unfold vector_search_agent_node
    rw [hskip, h]
    simp [hcat, hq]

/-- Witness for C10: a raising agent construction on a fresh record, and a
raising query on a classified record. -/
theorem C10_vector_exception_witness :
    vector_search_agent_node envVInitRaise (initState "q") =
      { initState "q" with error := some "Vector search error: db down" } ∧
    vector_search_agent_node envVRaise sClassified =
      { sClassified with error := some "Vector search error: boom" } := by
  constructor
  · rw [(C10_vector_exception_frame envVInitRaise (initState "q") "db down" rfl).1 rfl]
    rfl
  · rw [(C10_vector_exception_frame envVRaise sClassified "boom" rfl).2 rfl (by decide) rfl]
    rfl

end Origyn
